import Mathlib

/-!
Shallow embedding of the Open-Geotechnical-Management-System ETL core:
the boring-log CSV normalizer (`src/etl/borings/import_boring_csv.py`),
the DEM terrain analyzer (`src/etl/elevation/process_dem_data.py`) and
the ARAN surface-distress processor (`src/etl/imagery/process_aran_data.py`).
Text cells are modelled as `List Char`, floating-point values as `ℚ`,
fallible parsing as `Option`/`Except`, and the database as an explicit
state of pending and committed writes.
-/

/-- Whitespace characters stripped by Python's `str.strip()` (the subset
relevant to CSV cells). -/
def isSpace (c : Char) : Bool :=
  c = ' ' || c = '\t' || c = '\n' || c = '\r'

/-- Python `s.strip()`: drop leading and trailing whitespace. -/
def stripChars (s : List Char) : List Char :=
  ((s.dropWhile isSpace).reverse.dropWhile isSpace).reverse

/-- Python `s.split(sep)` for a one-character separator: splits at every
occurrence, keeping empty pieces (so the result is always non-empty). -/
def splitOnChar (sep : Char) : List Char → List (List Char)
  | [] => [[]]
  | c :: rest =>
    if c = sep then
      [] :: splitOnChar sep rest
    else
      match splitOnChar sep rest with
      | [] => [[c]]
      | t :: ts => (c :: t) :: ts

/-- Python `s.isdigit()` restricted to ASCII: non-empty and all decimal digits. -/
def isDigitTok (t : List Char) : Bool :=
  !t.isEmpty && t.all Char.isDigit

/-- Python `int(s)` on an all-digit token. -/
def toNatDigits (t : List Char) : Nat :=
  t.foldl (fun n c => n * 10 + (c.toNat - 48)) 0

/-- Unsigned part of Python `float(s)`: digits with an optional decimal
point; at least one digit must be present. The value `ip.fr` is the
rational `(ip * 10^|fr| + fr) / 10^|fr|`. Exponents and `inf`/`nan`
do not occur in this data and are not modelled. -/
def parseUnsigned (t : List Char) : Option ℚ :=
  let ip := t.takeWhile Char.isDigit
  match t.dropWhile Char.isDigit with
  | [] => if ip.isEmpty then none else some (mkRat (toNatDigits ip) 1)
  | '.' :: fr =>
    if fr.all Char.isDigit && (!ip.isEmpty || !fr.isEmpty) then
      some (mkRat (toNatDigits ip * 10 ^ fr.length + toNatDigits fr) (10 ^ fr.length))
    else none
  | _ => none

/-- Python `float(s)` on a text cell: strip whitespace, optional sign,
then an unsigned decimal numeral; `none` models the `ValueError`. -/
def parseFloat? (s : List Char) : Option ℚ :=
  match stripChars s with
  | '-' :: rest => (parseUnsigned rest).map (fun q => -q)
  | '+' :: rest => parseUnsigned rest
  | t => parseUnsigned t

/-- Python `s.endswith("R")`: the last character is `R`. -/
def endsWithR (s : List Char) : Bool :=
  match s.getLast? with
  | some c => c = 'R'
  | none => false

/-- Python `"-" in s`. -/
def containsDash (s : List Char) : Bool :=
  s.any (fun c => c = '-')

/-- Result of parsing one blow-count token in `parse_csv_file`
(`import_boring_csv.py`, lines 126-141): the individual blow counts, the
derived N-value and the refusal flag. -/
structure BlowParse where
  blows : List Nat
  n_value : Nat
  refusal : Bool
  deriving DecidableEq, Repr

/-- Blow-count token grammar of `parse_csv_file`
(`import_boring_csv.py`, lines 126-141), applied to the stripped token:
a token containing `-` and not ending in `R` is split on `-`, the
digit-only sub-tokens are summed (last two when at least two exist);
a token ending in `R` is a refusal with N-value 50; every other token
is skipped (`none`). -/
def parseBlowTok (s : List Char) : Option BlowParse :=
  if containsDash s && !endsWithR s then
    let ib := ((splitOnChar '-' s).filter isDigitTok).map toNatDigits
    let n := if 2 ≤ ib.length then (ib.drop (ib.length - 2)).sum else ib.sum
    some ⟨ib, n, false⟩
  else if endsWithR s || s = ['R'] then
    let ib :=
      if containsDash s then
        ((splitOnChar '-' (s.filter (fun c => c ≠ 'R'))).filter isDigitTok).map toNatDigits
      else []
    some ⟨ib, 50, true⟩
  else
    none

example : parseBlowTok ['6', '-', '8', '-', '1', '0'] = some ⟨[6, 8, 10], 18, false⟩ := by decide
example : parseBlowTok ['2', '5', '-', '3', '0', '-', 'R'] = some ⟨[25, 30], 50, true⟩ := by decide
example : parseBlowTok ['R'] = some ⟨[], 50, true⟩ := by decide
example : parseBlowTok ['2', '5', '-', '3', '0', '-', 'r'] = some ⟨[25, 30], 55, false⟩ := by decide
example : parseBlowTok ['x'] = none := by decide
example : parseFloat? [' ', '4', '.', '5'] = some (mkRat 9 2) := by decide
example : parseFloat? [] = none := by decide
example : parseFloat? ['-', '7', '8', '.', '5'] = some (mkRat (-157) 2) := by decide
example : parseFloat? ['.'] = none := by decide
example : parseFloat? ['1', '.'] = some 1 := by decide

/-- One SPT test interval produced by `parse_csv_file`
(`import_boring_csv.py`, lines 143-149). -/
structure SptRecord where
  depth_m : ℚ
  blow_counts : List Nat
  n_value : Nat
  penetration_mm : ℚ
  refusal : Bool
  deriving DecidableEq, Repr

/-- One raw CSV row as seen by `csv.DictReader`: for each expected column,
`none` means the column is absent from the file and `some s` is the cell
text (possibly empty). -/
structure RawRow where
  boring_id : Option (List Char)
  latitude : Option (List Char)
  longitude : Option (List Char)
  elevation : Option (List Char)
  date : Option (List Char)
  total_depth : Option (List Char)
  rock_depth : Option (List Char)
  water_depth : Option (List Char)
  depth_intervals : Option (List Char)
  blow_counts : Option (List Char)
  penetration_mm : Option (List Char)
  description : Option (List Char)
  deriving DecidableEq, Repr

/-- The parsed boring record built by `parse_csv_file`
(`import_boring_csv.py`, lines 98-151). -/
structure Boring where
  point_id : List Char
  latitude : ℚ
  longitude : ℚ
  elevation_m : Option ℚ
  investigation_date : Option (List Char)
  total_depth_m : Option ℚ
  rock_depth_m : Option ℚ
  groundwater_depth_m : Option ℚ
  description : List Char
  spt_data : List SptRecord
  deriving DecidableEq, Repr

/-- Python `float(row.get(col, 0))`: an absent column defaults to `0`,
a present cell must parse as a float or the row fails. -/
def getFloat (cell : Option (List Char)) : Option ℚ :=
  match cell with
  | none => some 0
  | some s => parseFloat? s

/-- Python `float(row.get(col, 0)) if row.get(col) else None`: absent or
empty cells give `none` (NULL); a non-empty cell must parse as a float
or the row fails (outer `none`). -/
def getOptFloat (cell : Option (List Char)) : Option (Option ℚ) :=
  match cell with
  | none => some none
  | some [] => some none
  | some s => (parseFloat? s).map some

/-- Per-interval penetration (`import_boring_csv.py`, line 124):
`float(penetrations[i])` when index `i` is in range and the cell is not
blank, else the default `150.0`. The list argument is the split
penetration field already advanced to position `i`. -/
def penAt (pens : List (List Char)) : Option ℚ :=
  match pens with
  | [] => some 150
  | p :: _ => if (stripChars p).isEmpty then some 150 else parseFloat? p

/-- The per-interval SPT loop of `parse_csv_file`
(`import_boring_csv.py`, lines 122-149): iterate `zip(depths, blows)`
(truncating to the shorter list), take the `i`-th penetration or default
150, parse the blow token, skip unrecognized tokens, and convert the
depth from feet to meters; `none` models a `float` conversion error that
aborts the whole row. In the refusal branch the penetration is clamped
to `0` when not positive. -/
def buildSpt : List ℚ → List (List Char) → List (List Char) → Option (List SptRecord)
  | [], _, _ => some []
  | _ :: _, [], _ => some []
  | d :: ds, b :: bs, pens =>
    match penAt pens with
    | none => none
    | some pen =>
      match buildSpt ds bs pens.tail with
      | none => none
      | some rest =>
        match parseBlowTok (stripChars b) with
        | none => some rest
        | some bp =>
          let pen2 := if bp.refusal then (if 0 < pen then pen else 0) else pen
          some ({ depth_m := d * (3048 / 10000 : ℚ), blow_counts := bp.blows,
                  n_value := bp.n_value, penetration_mm := pen2,
                  refusal := bp.refusal } :: rest)

/-- The depth-interval field parse (`import_boring_csv.py`, line 118):
split on `,`, keep non-blank pieces, parse each as a float. -/
def parseDepthsField (di : List Char) : Option (List ℚ) :=
  ((splitOnChar ',' di).filter (fun x => !(stripChars x).isEmpty)).mapM
    (fun x => parseFloat? (stripChars x))

/-- The SPT block of one row (`import_boring_csv.py`, lines 111-120):
when both the depth-interval and blow-count fields are non-empty, parse
the depths and run the interval loop; otherwise the row carries no SPT
data. -/
def rowSpt (row : RawRow) : Option (List SptRecord) :=
  let di := stripChars (row.depth_intervals.getD [])
  let bc := stripChars (row.blow_counts.getD [])
  let pm := stripChars (row.penetration_mm.getD [])
  if !di.isEmpty && !bc.isEmpty then
    match parseDepthsField di with
    | none => none
    | some depths =>
      buildSpt depths (splitOnChar ',' bc)
        (if !pm.isEmpty then splitOnChar ',' pm else [])
  else some []

/-- The per-row body of `parse_csv_file` (`import_boring_csv.py`,
lines 96-151): build the boring record from the row's cells; `none`
models the caught per-row exception (the row is skipped with a logged
warning). -/
def parseRow (row : RawRow) : Option Boring :=
  match getFloat row.latitude with
  | none => none
  | some lat =>
  match getFloat row.longitude with
  | none => none
  | some lon =>
  match getOptFloat row.elevation with
  | none => none
  | some elev =>
  match getOptFloat row.total_depth with
  | none => none
  | some tot =>
  match getOptFloat row.rock_depth with
  | none => none
  | some rock =>
  match getOptFloat row.water_depth with
  | none => none
  | some water =>
  match rowSpt row with
  | none => none
  | some spt =>
  some { point_id := stripChars (row.boring_id.getD []),
         latitude := lat, longitude := lon, elevation_m := elev,
         investigation_date :=
           (let dt := stripChars (row.date.getD [])
            if dt.isEmpty then none else some dt),
         total_depth_m := tot, rock_depth_m := rock,
         groundwater_depth_m := water,
         description := stripChars (row.description.getD []),
         spt_data := spt }

/-- `parse_csv_file` over a whole file (`import_boring_csv.py`,
lines 96-158): rows that fail to parse are skipped, the rest are
collected in order. -/
def parse_csv_file (rows : List RawRow) : List Boring :=
  rows.filterMap parseRow

/-- One SQL insert performed by `import_boring` (`import_boring_csv.py`,
lines 160-220): the point row or one SPT row of a given boring. -/
inductive DBWrite
  | point (b : Boring)
  | spt (b : Boring) (s : SptRecord)
  deriving DecidableEq, Repr

/-- The database connection state: `committed` rows are durable,
`pending` rows are uncommitted writes of the current transaction. -/
structure DBState where
  committed : List DBWrite
  pending : List DBWrite
  deriving DecidableEq, Repr

/-- `conn.commit()`: pending writes become durable. -/
def commitDB (st : DBState) : DBState :=
  ⟨st.committed ++ st.pending, []⟩

/-- `conn.rollback()`: every uncommitted write is discarded. -/
def rollbackDB (st : DBState) : DBState :=
  ⟨st.committed, []⟩

/-- The inserts `import_boring` performs for one boring
(`import_boring_csv.py`, lines 160-220): the point insert followed by
one SPT insert per `spt_data` entry, in list order. -/
def writesOf (b : Boring) : List DBWrite :=
  .point b :: b.spt_data.map (.spt b)

/-- The loop of `import_all_borings` (`import_boring_csv.py`,
lines 231-244). `failAt idx` says whether the `idx`-th call of
`import_boring` raises, and after how many of its inserts (`some j` =
raises after `j` inserts; `none` = succeeds). On success the counter is
bumped and every 10th success commits; on failure the connection is
rolled back, the failure counted, and the loop continues. -/
def importLoop (failAt : Nat → Option Nat) :
    List Boring → Nat → DBState → Nat → Nat → DBState × Nat × Nat
  | [], _, st, imp, fl => (st, imp, fl)
  | b :: rest, idx, st, imp, fl =>
    match failAt idx with
    | none =>
      let st1 : DBState := ⟨st.committed, st.pending ++ writesOf b⟩
      let imp1 := imp + 1
      let st2 := if imp1 % 10 = 0 then commitDB st1 else st1
      importLoop failAt rest (idx + 1) st2 imp1 fl
    | some j =>
      let st1 : DBState := ⟨st.committed, st.pending ++ (writesOf b).take j⟩
      importLoop failAt rest (idx + 1) (rollbackDB st1) imp (fl + 1)

/-- `import_all_borings` (`import_boring_csv.py`, lines 226-248): run the
loop from an empty connection state, commit the remainder, and return the
final state with the `(imported, failed)` counts. -/
def import_all_borings (borings : List Boring) (failAt : Nat → Option Nat) :
    DBState × Nat × Nat :=
  match importLoop failAt borings 0 ⟨[], []⟩ 0 0 with
  | (st, imp, fl) => (commitDB st, imp, fl)

/-- Error raised while processing one ARAN observation record: a missing
key in the record's JSON (Python `KeyError`). -/
inductive AranError
  | keyError
  deriving DecidableEq, Repr

/-- Python `record[key]` on an optional field: raises `KeyError` when
absent. -/
def reqKey {α : Type} (x : Option α) : Except AranError α :=
  match x with
  | some v => Except.ok v
  | none => Except.error .keyError

/-- Python `s.lower()`. -/
def lowerChars (s : List Char) : List Char :=
  s.map Char.toLower

/-- A geographic point inside one raw ARAN observation; each coordinate
key may be absent. -/
structure RawPoint where
  lat : Option ℚ
  lon : Option ℚ
  deriving DecidableEq, Repr

/-- One raw observation record of the ARAN JSON input
(`process_aran_data.py`, lines 56-70): every key may be absent. -/
structure RawObservation where
  survey_id : Option (List Char)
  route_id : Option (List Char)
  start_point : Option RawPoint
  end_point : Option RawPoint
  distress_type : Option (List Char)
  severity : Option (List Char)
  rut_depth_mm : Option ℚ
  iri_value : Option ℚ
  date : Option (List Char)
  deriving DecidableEq, Repr

/-- One processed ARAN record (`process_aran_data.py`, lines 57-70).
`observation_date = none` models the default "today". -/
structure SurfaceObservation where
  survey_id : Option (List Char)
  route_id : Option (List Char)
  start_lat : ℚ
  start_lon : ℚ
  end_lat : ℚ
  end_lon : ℚ
  distress_type : Option (List Char)
  severity : List Char
  rut_depth_mm : Option ℚ
  iri_value : Option ℚ
  observation_date : Option (List Char)
  deriving DecidableEq, Repr

/-- The per-record body of `parse_aran_file` (`process_aran_data.py`,
lines 56-71): `.get` keys default, but the four endpoint coordinates are
indexed directly (`record['start_point']['lat']`, ...) and raise
`KeyError` when absent; severity defaults to `"medium"` and is
lower-cased. -/
def parseObservation (r : RawObservation) : Except AranError SurfaceObservation := do
  let sp ← reqKey r.start_point
  let slat ← reqKey sp.lat
  let slon ← reqKey sp.lon
  let ep ← reqKey r.end_point
  let elat ← reqKey ep.lat
  let elon ← reqKey ep.lon
  Except.ok { survey_id := r.survey_id, route_id := r.route_id,
              start_lat := slat, start_lon := slon,
              end_lat := elat, end_lon := elon,
              distress_type := r.distress_type,
              severity := lowerChars (r.severity.getD ['m', 'e', 'd', 'i', 'u', 'm']),
              rut_depth_mm := r.rut_depth_mm, iri_value := r.iri_value,
              observation_date := r.date }

/-- `parse_aran_file` (`process_aran_data.py`, lines 44-74): process the
observation records in order; the loop has no per-record exception
handler, so the first `KeyError` propagates and aborts the whole run
(`Except.error`), discarding the records already processed. -/
def parse_aran_file (obs : List RawObservation) : Except AranError (List SurfaceObservation) :=
  obs.mapM parseObservation

/-- The `CASE` expression of `correlate_with_subsurface`
(`process_aran_data.py`, lines 128-133): distance-tiered correlation
score for a source-target pair. -/
def correlation_score (distance_m : ℚ) : ℚ :=
  if distance_m < 10 then 1
  else if distance_m < 25 then 0.8
  else if distance_m < 50 then 0.6
  else 0.4

/-- Slope-risk categories (`process_dem_data.py`, lines 193-202),
ordered `low < moderate < high < very_high`. -/
inductive RiskCategory
  | low
  | moderate
  | high
  | very_high
  deriving DecidableEq, Repr

/-- `_classify_slope_risk` (`process_dem_data.py`, lines 193-202):
classify a cell by its maximum slope in degrees. -/
def classify_slope_risk (max_slope : ℚ) : RiskCategory :=
  if max_slope < 15 then .low
  else if max_slope < 30 then .moderate
  else if max_slope < 45 then .high
  else .very_high

/-- An elevation raster: a 2-D grid of elevation samples, row-major. -/
def Grid : Type := List (List ℚ)

/-- Pixel access `g[r, c]` (both rasters in `detect_subsidence` share
shape; out-of-range reads never occur on the traversed coordinates). -/
def pix (g : Grid) (r c : Nat) : ℚ :=
  (g.getD r []).getD c 0

/-- Pointwise `elevation_diff = dem_new - dem_old`
(`process_dem_data.py`, line 255). -/
def diffAt (oldg newg : Grid) (r c : Nat) : ℚ :=
  pix newg r c - pix oldg r c

/-- Coordinates of the subsidence mask `elevation_diff < -threshold_m`
(`process_dem_data.py`, line 258), in row-major order. -/
def maskedCoords (oldg newg : Grid) (thr : ℚ) : List (Nat × Nat) :=
  (List.range newg.length).flatMap fun r =>
    ((List.range (newg.getD r []).length).filter
      (fun c => decide (diffAt oldg newg r c < -thr))).map fun c => (r, c)

/-- The 4-neighborhood of a pixel, scipy's default connectivity for
`ndimage.label` (`process_dem_data.py`, line 262). -/
def neighbors4 (p : Nat × Nat) : List (Nat × Nat) :=
  [(p.1 + 1, p.2), (p.1, p.2 + 1)] ++
    (if p.1 = 0 then [] else [(p.1 - 1, p.2)]) ++
    (if p.2 = 0 then [] else [(p.1, p.2 - 1)])

/-- Breadth-first closure of one connected component over the masked
coordinates `cand`: `comp` are processed pixels, the last argument the
frontier. Each masked pixel enters the frontier at most once, so fuel
`cand.length + 1` suffices. -/
def expandComp (cand : List (Nat × Nat)) :
    Nat → List (Nat × Nat) → List (Nat × Nat) → List (Nat × Nat)
  | 0, comp, _ => comp
  | _ + 1, comp, [] => comp
  | fuel + 1, comp, p :: rest =>
    let ns := (neighbors4 p).filter fun q =>
      cand.contains q && !(p :: comp).contains q && !rest.contains q
    expandComp cand fuel (p :: comp) (rest ++ ns)

/-- Split the masked coordinates into connected regions, the grouping
`ndimage.label` performs (`process_dem_data.py`, line 262): repeatedly
take the first unassigned pixel and close it under 4-connectivity. -/
def componentsAux (cand : List (Nat × Nat)) :
    Nat → List (Nat × Nat) → List (List (Nat × Nat))
  | 0, _ => []
  | _ + 1, [] => []
  | fuel + 1, p :: rest =>
    let comp := expandComp cand (cand.length + 1) [] [p]
    comp :: componentsAux cand fuel (rest.filter fun q => !comp.contains q)

/-- The connected regions of a masked-coordinate list. -/
def componentsList (cand : List (Nat × Nat)) : List (List (Nat × Nat)) :=
  componentsAux cand cand.length cand

/-- One detected subsidence region (`process_dem_data.py`,
lines 280-285). `pixel_count` records `np.sum(region_mask)`, the value
the source both filters on and multiplies by 900 for the area. -/
structure SubsidenceArea where
  bounds : ℚ × ℚ × ℚ × ℚ
  avg_subsidence_m : ℚ
  max_subsidence_m : ℚ
  area_m2 : ℚ
  pixel_count : Nat
  deriving DecidableEq, Repr

/-- Statistics of one surviving region (`process_dem_data.py`,
lines 268-285): bounding box corners mapped through the affine transform
`tf : (col, row) → (lon, lat)`, mean and most-negative elevation change,
and area `pixel count * 900` (assumed 30 m pixels). `mkRat n 1` embeds
the integer pixel count into `ℚ`. -/
def regionStats (oldg newg : Grid) (tf : Nat → Nat → ℚ × ℚ)
    (comp : List (Nat × Nat)) : SubsidenceArea :=
  let rs := comp.map Prod.fst
  let cs := comp.map Prod.snd
  let min_r := rs.min?.getD 0
  let max_r := rs.max?.getD 0
  let min_c := cs.min?.getD 0
  let max_c := cs.max?.getD 0
  let p1 := tf min_c min_r
  let p2 := tf max_c max_r
  let diffs := comp.map fun p => diffAt oldg newg p.1 p.2
  { bounds := (p1.1, p2.2, p2.1, p1.2),
    avg_subsidence_m := diffs.sum / mkRat comp.length 1,
    max_subsidence_m := (diffs.min?).getD 0,
    area_m2 := mkRat comp.length 1 * 900,
    pixel_count := comp.length }

/-- `detect_subsidence` (`process_dem_data.py`, lines 244-288) on two
already-read rasters of the same extent: mask pixels whose elevation
drop exceeds the threshold, group them into connected regions, discard
regions of `np.sum(region_mask) > 10` failing size, and report the
statistics of each survivor. -/
def detect_subsidence (oldg newg : Grid) (thr : ℚ)
    (tf : Nat → Nat → ℚ × ℚ) : List SubsidenceArea :=
  ((componentsList (maskedCoords oldg newg thr)).filter
    (fun comp => 10 < comp.length)).map (regionStats oldg newg tf)

/-! ## Claim theorems -/

/-- The integer-valued sub-tokens of a `-`-separated blow-count token:
split on `-`, keep the digit-only pieces, read each as an integer. -/
def parsedBlows (s : List Char) : List Nat :=
  ((splitOnChar '-' s).filter isDigitTok).map toNatDigits

/-- Summing the last two entries (as `drop (length - 2)`) is summing the
first two of the reversal, stated over a mapped list as it occurs in the
parser. -/
theorem sum_drop_sub_two {α : Type} (f : α → Nat) (A : List α) :
    ((A.map f).drop (A.length - 2)).sum = ((A.map f).reverse.take 2).sum := by
  rw [List.take_reverse, List.sum_reverse, List.length_map]

/-- C1 counterexample: the token `25-30-r` ends in the claimed refusal
marker `r`, yet the parser treats it as an ordinary blow sequence:
refusal is `false` and the N-value is `25 + 30 = 55`, not the refusal
constant 50. Only upper-case `R` reaches the refusal branch
(`import_boring_csv.py`, lines 126 and 131). -/
theorem c1_lowercase_r_counterexample :
    (['2', '5', '-', '3', '0', '-', 'r']).getLast? = some 'r' ∧
    parseBlowTok ['2', '5', '-', '3', '0', '-', 'r'] = some ⟨[25, 30], 55, false⟩ := by
  decide

/-- C1 (amended): every blow-count token ending in the upper-case
refusal marker `R` (including the bare token `R`) parses with N-value
fixed at the refusal constant 50 and refusal = true, regardless of the
token's numeric content; lower-case `r` is not a refusal marker. -/
theorem c1_uppercase_refusal_n50 (s : List Char) (h : endsWithR s = true) :
    (parseBlowTok s).map (fun bp => (bp.n_value, bp.refusal)) = some (50, true) := by
  unfold parseBlowTok
  rw [h]
  simp

/-- C1 witness: the amended theorem applied to the concrete token
`25-30-R`. -/
theorem c1_uppercase_refusal_n50_witness :
    (parseBlowTok ['2', '5', '-', '3', '0', '-', 'R']).map
      (fun bp => (bp.n_value, bp.refusal)) = some (50, true) :=
  c1_uppercase_refusal_n50 ['2', '5', '-', '3', '0', '-', 'R'] (by decide)

/-- C2: every blow-count token containing `-` and not ending in the
refusal marker parses with refusal = false and N-value the sum of the
last two integer-valued sub-tokens when at least two parse as integers,
else the sum of all that parse (non-numeric sub-tokens dropped). -/
theorem c2_dash_token_n_value (s : List Char)
    (hd : containsDash s = true) (hR : endsWithR s = false) :
    parseBlowTok s =
      some ⟨parsedBlows s,
            if 2 ≤ (parsedBlows s).length then ((parsedBlows s).reverse.take 2).sum
            else (parsedBlows s).sum,
            false⟩ := by
  unfold parseBlowTok
  rw [hd, hR]
  simp [parsedBlows, sum_drop_sub_two]

/-- C2 witness: the theorem applied to the concrete token `6-8-10`,
whose N-value is `8 + 10 = 18`. -/
theorem c2_dash_token_n_value_witness :
    parseBlowTok ['6', '-', '8', '-', '1', '0'] = some ⟨[6, 8, 10], 18, false⟩ :=
  (c2_dash_token_n_value ['6', '-', '8', '-', '1', '0'] (by decide) (by decide)).trans
    (by decide)

/-- C6: the correlation score is a step function of source-target
distance with strict `<` boundaries: `< 10` m scores 1.0, `[10, 25)`
scores 0.8, `[25, 50)` scores 0.6, and `≥ 50` (up to the caller's
maximum) scores 0.4; in particular exactly 10 m scores 0.8, not 1.0. -/
theorem c6_correlation_score_tiers (d : ℚ) :
    (d < 10 → correlation_score d = 1) ∧
    (10 ≤ d → d < 25 → correlation_score d = 0.8) ∧
    (25 ≤ d → d < 50 → correlation_score d = 0.6) ∧
    (50 ≤ d → correlation_score d = 0.4) ∧
    correlation_score 10 = 0.8 := by
  refine ⟨fun h => ?_, fun h1 h2 => ?_, fun h1 h2 => ?_, fun h1 => ?_, ?_⟩
  · rw [correlation_score, if_pos h]
  · rw [correlation_score, if_neg (by linarith), if_pos h2]
  · rw [correlation_score, if_neg (by linarith), if_neg (by linarith), if_pos h2]
  · rw [correlation_score, if_neg (by linarith), if_neg (by linarith),
      if_neg (by linarith)]
  · rw [correlation_score]
    norm_num

/-- C6 witness: the theorem applied at the concrete distances 10 m and
30 m. -/
theorem c6_correlation_score_tiers_witness :
    correlation_score 10 = 0.8 ∧ correlation_score 30 = 0.6 :=
  ⟨(c6_correlation_score_tiers 10).2.1 (by norm_num) (by norm_num),
   (c6_correlation_score_tiers 30).2.2.1 (by norm_num) (by norm_num)⟩

/-- C7: slope-risk classification is half-open on the lower bound:
maximum slope `< 15`° is low, `[15, 30)` moderate, `[30, 45)` high and
`≥ 45` very_high; in particular 15.0° is moderate, 30.0° high and 45.0°
very_high. -/
theorem c7_slope_risk_boundaries (m : ℚ) :
    (m < 15 → classify_slope_risk m = .low) ∧
    (15 ≤ m → m < 30 → classify_slope_risk m = .moderate) ∧
    (30 ≤ m → m < 45 → classify_slope_risk m = .high) ∧
    (45 ≤ m → classify_slope_risk m = .very_high) ∧
    classify_slope_risk 15 = .moderate ∧
    classify_slope_risk 30 = .high ∧
    classify_slope_risk 45 = .very_high := by
  refine ⟨fun h => ?_, fun h1 h2 => ?_, fun h1 h2 => ?_, fun h1 => ?_, ?_, ?_, ?_⟩
  · rw [classify_slope_risk, if_pos h]
  · rw [classify_slope_risk, if_neg (by linarith), if_pos h2]
  · rw [classify_slope_risk, if_neg (by linarith), if_neg (by linarith), if_pos h2]
  · rw [classify_slope_risk, if_neg (by linarith), if_neg (by linarith),
      if_neg (by linarith)]
  · rw [classify_slope_risk]
    norm_num
  · rw [classify_slope_risk]
    norm_num
  · rw [classify_slope_risk]
    norm_num

/-- C7 witness: the theorem applied at the concrete slope 20°. -/
theorem c7_slope_risk_boundaries_witness :
    classify_slope_risk 20 = .moderate :=
  (c7_slope_risk_boundaries 20).2.1 (by norm_num) (by norm_num)

/-- A raw row with every column absent, in particular the three
"required" fields boring_id, latitude and longitude. -/
def c3Row : RawRow :=
  { boring_id := none, latitude := none, longitude := none,
    elevation := none, date := none, total_depth := none,
    rock_depth := none, water_depth := none, depth_intervals := none,
    blow_counts := none, penetration_mm := none, description := none }

/-- A raw row whose latitude cell is present but blank; `float('')`
raises and the row is skipped. -/
def c3BlankLatRow : RawRow :=
  { boring_id := some ['B'], latitude := some [], longitude := some ['2'],
    elevation := none, date := none, total_depth := none,
    rock_depth := none, water_depth := none, depth_intervals := none,
    blow_counts := none, penetration_mm := none, description := none }

/-- C3 counterexample: a row missing all three "required" fields (point
identifier, latitude, longitude) is NOT rejected: `row.get` defaults the
identifier to the empty string and the coordinates to `0`, and a
GeotechnicalPoint record is produced (`import_boring_csv.py`,
lines 99-101). -/
theorem c3_missing_required_fields_counterexample :
    parseRow c3Row =
      some { point_id := [], latitude := 0, longitude := 0,
             elevation_m := none, investigation_date := none,
             total_depth_m := none, rock_depth_m := none,
             groundwater_depth_m := none, description := [],
             spt_data := [] } := by
  decide

/-- C3 (amended): a row whose latitude or longitude cell is present but
unparseable as a float (e.g. blank) fails with the caught per-row
exception and is skipped — no record is produced; rows whose required
cells are absent are instead silently defaulted, and failures are logged
per row rather than counted and reported at the end. -/
theorem c3_unparseable_latlon_skipped (row : RawRow) (s : List Char)
    (h : row.latitude = some s ∧ parseFloat? s = none ∨
         row.longitude = some s ∧ parseFloat? s = none) :
    parseRow row = none := by
  rcases h with ⟨hs, hp⟩ | ⟨hs, hp⟩
  · simp [parseRow, getFloat, hs, hp]
  · cases hl : getFloat row.latitude with
    | none => simp [parseRow, hl]
    | some q =>
      unfold parseRow
      rw [hl]
      simp [getFloat, hs, hp]

/-- C3 witness: the amended theorem applied to the concrete row with a
blank latitude cell. -/
theorem c3_unparseable_latlon_skipped_witness :
    parseRow c3BlankLatRow = none :=
  c3_unparseable_latlon_skipped c3BlankLatRow [] (Or.inl ⟨rfl, by decide⟩)

/-- The count invariant of the import loop: every iteration increments
exactly one of the two counters. -/
theorem importLoop_counts (failAt : Nat → Option Nat) :
    ∀ (bs : List Boring) (idx : Nat) (st : DBState) (imp fl : Nat),
      (importLoop failAt bs idx st imp fl).2.1 + (importLoop failAt bs idx st imp fl).2.2
        = imp + fl + bs.length := by
  intro bs
  induction bs with
  | nil => intro idx st imp fl; simp [importLoop]
  | cons b rest ih =>
    intro idx st imp fl
    rw [importLoop]
    cases failAt idx with
    | none =>
      simp only []
      rw [ih]
      simp [Nat.add_assoc, Nat.add_comm, Nat.add_left_comm]
    | some j =>
      simp only []
      rw [ih]
      simp [Nat.add_assoc, Nat.add_comm, Nat.add_left_comm]

/-- C8: batch import processes every record in turn; a persistence
failure for one record (modelled by the failure plan `failAt`) is
skipped without aborting the rest, and the returned
`(imported, failed)` counts always sum to the number of records in the
batch. -/
theorem c8_batch_import_counts (borings : List Boring) (failAt : Nat → Option Nat) :
    (import_all_borings borings failAt).2.1 + (import_all_borings borings failAt).2.2
      = borings.length := by
  unfold import_all_borings
  have h := importLoop_counts failAt borings 0 ⟨[], []⟩ 0 0
  rcases hr : importLoop failAt borings 0 ⟨[], []⟩ 0 0 with ⟨st, imp, fl⟩
  rw [hr] at h
  simpa using h

/-- The first boring of the C4 failing batch; it imports successfully. -/
def c4B1 : Boring :=
  { point_id := ['B', '1'], latitude := 0, longitude := 0,
    elevation_m := none, investigation_date := none, total_depth_m := none,
    rock_depth_m := none, groundwater_depth_m := none, description := [],
    spt_data := [] }

/-- The second boring of the C4 failing batch; its insert fails. -/
def c4B2 : Boring :=
  { c4B1 with point_id := ['B', '2'] }

/-- The C4 failure plan: record 0 succeeds; record 1 raises after its
point insert was already issued. -/
def c4FailPlan : Nat → Option Nat :=
  fun i => if i = 1 then some 1 else none

/-- C4: the code at the failing input. In the batch `[B1, B2]` where B1
persists fine and B2's insert then raises, the `conn.rollback()` on B2's
failure discards B1's still-uncommitted writes as well (the commit
cadence is every 10 successes), so the final committed state is empty —
B1's point write is gone even though B1 is counted as imported
(`import_boring_csv.py`, lines 236-243). -/
theorem c4_rollback_discards_prior_success :
    import_all_borings [c4B1, c4B2] c4FailPlan = (⟨[], []⟩, 1, 1) ∧
    DBWrite.point c4B1 ∉ (import_all_borings [c4B1, c4B2] c4FailPlan).1.committed := by
  constructor
  · decide
  · decide

/-- The SPT loop emits records in input-interval order: the produced
depth list is a sublist of the input depths (feet converted to meters),
in the same order. -/
theorem buildSpt_depths_sublist :
    ∀ (ds : List ℚ) (bs ps : List (List Char)) (l : List SptRecord),
      buildSpt ds bs ps = some l →
      (l.map SptRecord.depth_m).Sublist (ds.map fun d => d * (3048 / 10000 : ℚ))
  | [], bs, ps, l => by
    intro h
    simp only [buildSpt] at h
    cases h
    simp
  | d :: ds, [], ps, l => by
    intro h
    simp only [buildSpt] at h
    cases h
    simp
  | d :: ds, b :: bs, ps, l => by
    intro h
    simp only [buildSpt] at h
    cases hpen : penAt ps with
    | none => rw [hpen] at h; exact absurd h (by simp)
    | some pen =>
      rw [hpen] at h
      cases hrest : buildSpt ds bs ps.tail with
      | none => rw [hrest] at h; exact absurd h (by simp)
      | some rest =>
        rw [hrest] at h
        have ih := buildSpt_depths_sublist ds bs ps.tail rest hrest
        cases htok : parseBlowTok (stripChars b) with
        | none =>
          rw [htok] at h
          cases h
          exact List.Sublist.cons _ ih
        | some bp =>
          rw [htok] at h
          cases h
          simpa using List.Sublist.cons₂ (d * (3048 / 10000 : ℚ)) ih

/-- A successfully parsed row's SPT list is exactly the output of the
row's SPT block. -/
theorem parseRow_spt_source (row : RawRow) (b : Boring)
    (hb : parseRow row = some b) : rowSpt row = some b.spt_data := by
  unfold parseRow at hb
  repeat' split at hb
  all_goals cases hb
  all_goals assumption

/-- A raw row whose depth intervals are listed in descending order. -/
def c9Row : RawRow :=
  { boring_id := some ['B'], latitude := some ['1'], longitude := some ['2'],
    elevation := none, date := none, total_depth := none,
    rock_depth := none, water_depth := none,
    depth_intervals := some ['4', ',', '2'],
    blow_counts := some ['1', '-', '2', ',', '3', '-', '4'],
    penetration_mm := none, description := none }

set_option maxRecDepth 8000 in
/-- C9 counterexample: a row listing its depth intervals as `4,2`
(descending) parses into SPT entries in that same input order, so the
nested depths `[1.2192, 0.6096]` are NOT ascending — `parse_csv_file`
and `import_boring` never sort the intervals (`import_boring_csv.py`,
lines 122, 195). -/
theorem c9_descending_input_counterexample :
    ((parseRow c9Row).map fun b => b.spt_data.map SptRecord.depth_m)
      = some [mkRat 12192 10000, mkRat 6096 10000] ∧
    ¬ List.Chain' (· ≤ ·) [(mkRat 12192 10000 : ℚ), mkRat 6096 10000] := by
  constructor
  · with_unfolding_all decide
  · intro hch
    have hle := (List.chain'_cons.mp hch).1
    revert hle
    with_unfolding_all decide

/-- C9 (amended): the nested SPT entries of a parsed boring follow the
input row's interval order (their depth list is the input depth list,
converted to meters, restricted to the recognized tokens); they are in
ascending depth order whenever the input depth intervals are ascending —
not regardless of the input order. -/
theorem c9_spt_depths_follow_input (row : RawRow) (b : Boring) (ds : List ℚ)
    (hb : parseRow row = some b)
    (hds : parseDepthsField (stripChars (row.depth_intervals.getD [])) = some ds)
    (hasc : List.Chain' (· ≤ ·) ds) :
    List.Chain' (· ≤ ·) (b.spt_data.map SptRecord.depth_m) := by
  have hspt := parseRow_spt_source row b hb
  simp only [rowSpt] at hspt
  by_cases hcond : (!(stripChars (row.depth_intervals.getD [])).isEmpty
      && !(stripChars (row.blow_counts.getD [])).isEmpty) = true
  · rw [if_pos hcond, hds] at hspt
    have hsub := buildSpt_depths_sublist ds _ _ _ hspt
    have hmap : List.Chain' (· ≤ ·) (ds.map fun d => d * (3048 / 10000 : ℚ)) :=
      List.chain'_map_of_chain' _
        (fun a c hac => mul_le_mul_of_nonneg_right hac (by norm_num)) hasc
    rw [List.chain'_iff_pairwise] at hmap ⊢
    exact List.Pairwise.sublist hsub hmap
  · rw [if_neg hcond] at hspt
    have h0 : b.spt_data = [] := (Option.some.inj hspt).symm
    rw [h0]
    simp

/-- The C9 witness row: same row with ascending depth intervals `2,4`. -/
def c9AscRow : RawRow :=
  { c9Row with depth_intervals := some ['2', ',', '4'] }

/-- The boring parsed from `c9AscRow`. -/
def c9AscBoring : Boring :=
  { point_id := ['B'], latitude := 1, longitude := 2, elevation_m := none,
    investigation_date := none, total_depth_m := none, rock_depth_m := none,
    groundwater_depth_m := none, description := [],
    spt_data := [⟨mkRat 6096 10000, [1, 2], 3, 150, false⟩,
                 ⟨mkRat 12192 10000, [3, 4], 7, 150, false⟩] }

set_option maxRecDepth 8000 in
/-- C9 witness: the amended theorem applied to the concrete row whose
depth intervals are ascending. -/
theorem c9_spt_depths_follow_input_witness :
    List.Chain' (· ≤ ·) (c9AscBoring.spt_data.map SptRecord.depth_m) :=
  c9_spt_depths_follow_input c9AscRow c9AscBoring [2, 4]
    (by with_unfolding_all decide) (by with_unfolding_all decide)
    (by
      rw [List.chain'_cons]
      refine ⟨by norm_num, ?_⟩
      simp)

/-- A well-formed ARAN observation record. -/
def c10Good : RawObservation :=
  { survey_id := some ['S', '1'], route_id := some ['R', '8'],
    start_point := some ⟨some 1, some 2⟩, end_point := some ⟨some 3, some 4⟩,
    distress_type := some ['r', 'u', 't'], severity := some ['H', 'i', 'g', 'h'],
    rut_depth_mm := some 12, iri_value := some 3, date := none }

/-- A malformed ARAN observation record: the end point is missing. -/
def c10Bad : RawObservation :=
  { c10Good with end_point := none }

/-- The processed form of `c10Good`. -/
def c10GoodProcessed : SurfaceObservation :=
  { survey_id := some ['S', '1'], route_id := some ['R', '8'],
    start_lat := 1, start_lon := 2, end_lat := 3, end_lon := 4,
    distress_type := some ['r', 'u', 't'], severity := ['h', 'i', 'g', 'h'],
    rut_depth_mm := some 12, iri_value := some 3, observation_date := none }

/-- C10: the code at the failing input. The well-formed record parses on
its own, but a run containing one malformed record (missing end-point
coordinates) raises `KeyError` with no per-record handler
(`process_aran_data.py`, line 63): the whole multi-record run aborts,
the already-processed good record is discarded, and no success/failure
counts are returned to the caller. -/
theorem c10_one_bad_record_aborts_run :
    parse_aran_file [c10Good] = Except.ok [c10GoodProcessed] ∧
    parse_aran_file [c10Good, c10Bad] = Except.error AranError.keyError := by
  constructor
  · with_unfolding_all rfl
  · with_unfolding_all rfl

/-- The C5 baseline raster: a 6 × 7 grid of constant elevation 100 m. -/
def demOld : Grid := List.replicate 6 (List.replicate 7 100)

/-- One interior row of the later raster: columns 1-5 dropped by 0.5 m. -/
def demNewRow : List ℚ := [100, 199/2, 199/2, 199/2, 199/2, 199/2, 100]

/-- The later raster: identical to `demOld` except one contiguous
4 × 5 block (rows 1-4, columns 1-5; 20 pixels) 0.5 m lower. -/
def demNew : Grid :=
  [List.replicate 7 100, demNewRow, demNewRow, demNewRow, demNewRow,
   List.replicate 7 100]

/-- A simple affine transform for the C5 example: pixel `(c, r)` maps to
the geographic pair `(c, r)`. -/
def demTf : Nat → Nat → ℚ × ℚ := fun c r => (mkRat c 1, mkRat r 1)

/-- The masked coordinates of the C5 raster pair: exactly the 20
dropped pixels, row-major. -/
def demMask : List (Nat × Nat) :=
  [(1, 1), (1, 2), (1, 3), (1, 4), (1, 5),
   (2, 1), (2, 2), (2, 3), (2, 4), (2, 5),
   (3, 1), (3, 2), (3, 3), (3, 4), (3, 5),
   (4, 1), (4, 2), (4, 3), (4, 4), (4, 5)]

set_option maxRecDepth 4000 in
/-- C5: every region in `detect_subsidence` output passed the
`np.sum(region_mask) > 10` filter, so no region with pixel count below
the minimum threshold 10 ever appears; and the synthetic raster pair
with a single contiguous 20-pixel, -0.5 m drop (threshold 0.1 m) yields
exactly one region, whose area is `20 × 900` m² for the assumed 30 m
pixels. -/
theorem c5_small_regions_filtered_and_example :
    (∀ (oldg newg : Grid) (thr : ℚ) (tf : Nat → Nat → ℚ × ℚ) (a : SubsidenceArea),
      a ∈ detect_subsidence oldg newg thr tf → ¬ a.pixel_count < 10) ∧
    (detect_subsidence demOld demNew (1 / 10) demTf).map
      (fun a => (a.pixel_count, a.area_m2)) = [(20, 18000)] := by
  constructor
  · intro oldg newg thr tf a ha
    unfold detect_subsidence at ha
    rw [List.mem_map] at ha
    obtain ⟨comp, hcomp, rfl⟩ := ha
    rw [List.mem_filter] at hcomp
    have h10 : 10 < comp.length := by simpa using hcomp.2
    have hpc : (regionStats oldg newg tf comp).pixel_count = comp.length := rfl
    omega
  · have hmask : maskedCoords demOld demNew (1 / 10) = demMask := by
      with_unfolding_all decide
    have hlen : (componentsList demMask).map List.length = [20] := by decide
    obtain ⟨comp, hcl, hlen20⟩ :
        ∃ comp, componentsList demMask = [comp] ∧ comp.length = 20 := by
      rcases h : componentsList demMask with _ | ⟨c, _ | ⟨d, t2⟩⟩ <;>
        rw [h] at hlen <;> simp at hlen
      exact ⟨c, rfl, hlen⟩
    have harea : (mkRat 20 1 * 900 : ℚ) = 18000 := by with_unfolding_all rfl
    unfold detect_subsidence
    rw [hmask, hcl]
    simp [List.filter_cons, hlen20, regionStats, harea]
    norm_num

/-- C5 witness: the filter half of the theorem applied to the one region
the synthetic pair produces (its existence comes from the example half
of the theorem). -/
theorem c5_small_regions_filtered_witness :
    ¬ ((detect_subsidence demOld demNew (1 / 10) demTf).headD
        ⟨(0, 0, 0, 0), 0, 0, 0, 0⟩).pixel_count < 10 := by
  have h2 := c5_small_regions_filtered_and_example.2
  rcases hd : detect_subsidence demOld demNew (1 / 10) demTf with _ | ⟨a, t⟩
  · rw [hd] at h2
    simp at h2
  · refine c5_small_regions_filtered_and_example.1 demOld demNew (1 / 10) demTf _ ?_
    rw [hd]
    simp
